import Mathlib

/-!
Shallow embedding of scripts/generate-zkemail-proof/src/main.rs, a driver
that generates a zkEmail proof fixture.  Pure Rust functions become Lean
functions; the external crate calls (relayer_utils::ParsedEmail,
email_tx_builder::command/prove) are abstracted as an explicit environment
of fallible functions; machine integers (U256, H256) are Nat values;
panicking unwrap calls and fallible stages are modelled with Option and
Except; the file-system write performed by generate_proof is returned as
an explicit observation instead of an effect.
-/

namespace ZkEmailFixture

/-- JSON value tree, modelling the serde_json::Value built by the json!
macro in generate_proof before it is pretty-printed and written. -/
inductive Json where
  | str : String → Json
  | num : Nat → Json
  | arr : List Json → Json
  | obj : List (String × Json) → Json

/-- Lifecycle status of a relayer request (email_tx_builder model::RequestStatus,
as listed in the data model). -/
inductive RequestStatus where
  | Received
  | Verifying
  | Proving
  | Proved
  | Failed
deriving DecidableEq

/-- EmailTxAuth record as constructed by create_mock_request.  U256 and H256
values are Nat; dkim_contract_address keeps its Rust type Option String. -/
structure EmailTxAuth where
  template_id : Nat
  account_salt : Option Nat
  chain : Option String
  dkim_contract_address : Option String
deriving DecidableEq

/-- RequestModel record as constructed by create_mock_request.  The Uuid and
the two chrono timestamps are modelled as Nat values supplied by the caller
(explicit state passing for Uuid::new_v4 and Utc::now). -/
structure RequestModel where
  id : Nat
  subject : String
  email_tx_auth : EmailTxAuth
  status : RequestStatus
  from_email : Option String
  reply_to_message_id : Option String
  created_at : Nat
  updated_at : Nat
deriving DecidableEq

/-- EmailAuthMsg record (email_tx_builder abis::EmailAuthMsg) as assembled in
generate_proof.  command_params is the ABI-encoded parameter list (a list of
byte sequences); the proof artifact is kept opaque as a byte sequence, since
the driver never inspects it. -/
structure EmailAuthMsg where
  template_id : Nat
  command_params : List (List Nat)
  skipped_command_prefix : Nat
  proof : List Nat
deriving DecidableEq

/-- Value of a hexadecimal digit character, as accepted by the FromStr
implementations behind U256::from_str and H256::from_str. -/
def hexDigitVal (c : Char) : Option Nat :=
  if Char.toNat '0' ≤ c.toNat ∧ c.toNat ≤ Char.toNat '9' then some (c.toNat - Char.toNat '0')
  else if Char.toNat 'a' ≤ c.toNat ∧ c.toNat ≤ Char.toNat 'f' then
    some (c.toNat - Char.toNat 'a' + 10)
  else if Char.toNat 'A' ≤ c.toNat ∧ c.toNat ≤ Char.toNat 'F' then
    some (c.toNat - Char.toNat 'A' + 10)
  else none

/-- Left fold of hex digits into a Nat, failing on a non-hex character. -/
def parseHexDigits : List Char → Nat → Option Nat
  | [], acc => some acc
  | c :: cs, acc =>
    match hexDigitVal c with
    | some v => parseHexDigits cs (16 * acc + v)
    | none => none

/-- Drops an optional leading 0x marker, as both FromStr implementations do. -/
def dropHexMarker : List Char → List Char
  | '0' :: 'x' :: rest => rest
  | l => l

/-- Models U256::from_str: hexadecimal parse with optional 0x marker, at most
64 hex digits and at least one. -/
def parseU256 (s : String) : Option Nat :=
  let ds := dropHexMarker s.toList
  if ds.length = 0 ∨ 64 < ds.length then none
  else parseHexDigits ds 0

/-- Models H256::from_str: hexadecimal parse with optional 0x marker and
exactly 64 hex digits (32 bytes). -/
def parseH256 (s : String) : Option Nat :=
  let ds := dropHexMarker s.toList
  if ds.length = 64 then parseHexDigits ds 0 else none

/-- Models H256::zero().to_string(): the Display implementation of a fixed
hash abbreviates to 0x, the first two bytes, an ellipsis character, and the
last two bytes, so the zero hash renders as 0x0000…0000. -/
def h256_zero_string : String := "0x0000…0000"

/-- generate_sample_email from the driver: a pure format of the hash and
domain into a fixed RFC822-style email.  The account_salt argument is
accepted but, exactly as in the source format string, never used. -/
def generate_sample_email (hash domain account_salt : String) : String :=
  "From: test@" ++ domain ++ "\r\n" ++
  "To: relayer@example.com\r\n" ++
  "Subject: signHash " ++ hash ++ "\r\n" ++
  "Message-ID: <test123@" ++ domain ++ ">\r\n" ++
  "Date: Thu, 21 Mar 2024 12:00:00 +0000\r\n" ++
  "DKIM-Signature: v=1; a=rsa-sha256; d=" ++ domain ++
    "; s=selector; h=from:to:subject; bh=base64==; b=signature==\r\n" ++
  "\r\n" ++
  "This is a test email to sign hash " ++ hash ++ ".\r\n"

/-- create_mock_request from the driver.  fresh_id and now stand for
Uuid::new_v4() and chrono::Utc::now(); the two unwrap calls on
U256::from_str and H256::from_str are modelled as Option (none is the
panic). -/
def create_mock_request (fresh_id now : Nat) (template_id account_salt : String) :
    Option RequestModel :=
  match parseU256 template_id, parseH256 account_salt with
  | some tid, some salt =>
    some
      { id := fresh_id
        subject := "signHash"
        email_tx_auth :=
          { template_id := tid
            account_salt := some salt
            chain := some "sepolia"
            dkim_contract_address := some h256_zero_string }
        status := RequestStatus.Received
        from_email := some "test@example.com"
        reply_to_message_id := none
        created_at := now
        updated_at := now }
  | _, _ => none

/-- External collaborators used by generate_proof, abstracted as fallible
functions: ParsedEmail::new_from_raw_email (its parsed value is only
logged, so the success payload is Unit), get_encoded_command_params, and
generate_email_proof (the RelayerState argument of the latter is folded
into the environment). -/
structure PipelineEnv where
  parse_email : String → Except String Unit
  get_encoded_command_params : String → RequestModel → Except String (List (List Nat))
  generate_email_proof : String → RequestModel → Except String (List Nat)

/-- Observable outcome of one generate_proof run: the returned Result, with
the assembled EmailAuthMsg as the success observation; the file write that
was performed, as the path and the JSON document handed to
serde_json::to_string_pretty (none when no write happened); the status
field of the local request at the end of the run (none when request
construction panicked before one existed); and how many times
generate_email_proof, the proving-backend call, was invoked. -/
structure RunResult where
  result : Except String EmailAuthMsg
  written : Option (String × Json)
  request_status : Option RequestStatus
  backend_calls : Nat

/-- Boolean error test on Except. -/
def isErr {ε α : Type} : Except ε α → Bool
  | Except.error _ => true
  | Except.ok _ => false

/-- Serialization of the EmailAuthMsg subtree of the json! document.  The
concrete serde encoding of this external struct is not part of the driver
source; only its presence under the emailAuthMsg key matters here, so its
fields are rendered schematically. -/
def encodeEmailAuthMsg (m : EmailAuthMsg) : Json :=
  Json.obj
    [ ("templateId", Json.num m.template_id)
    , ("commandParams", Json.arr (m.command_params.map (fun bs => Json.arr (bs.map Json.num))))
    , ("skippedCommandPrefix", Json.num (EmailAuthMsg.skipped_command_prefix m))
    , ("proof", Json.arr (m.proof.map Json.num)) ]

/-- The json! document built in generate_proof, with its five keys in the
order they appear in the source. -/
def jsonOutput (msg : EmailAuthMsg) (hash domain account_salt template_id : String) : Json :=
  Json.obj
    [ ("emailAuthMsg", encodeEmailAuthMsg msg)
    , ("hash", Json.str hash)
    , ("domain", Json.str domain)
    , ("accountSalt", Json.str account_salt)
    , ("templateId", Json.str template_id) ]

/-- generate_proof from the driver: builds the sample email and the mock
request, then runs the three external stages in order, short-circuiting on
the first error with the anyhow context strings from the source; on success
assembles the EmailAuthMsg with skipped_command_prefix hardcoded to
U256::zero() and writes the json! document to the output path. -/
def generate_proof (env : PipelineEnv) (fresh_id now : Nat)
    (hash domain account_salt template_id output_path : String) : RunResult :=
  let email := generate_sample_email hash domain account_salt
  match create_mock_request fresh_id now template_id account_salt with
  | none =>
    { result := Except.error "panicked: unwrap on a failed parse in create_mock_request"
      written := none
      request_status := none
      backend_calls := 0 }
  | some request =>
    match env.parse_email email with
    | Except.error e =>
      { result := Except.error ("Failed to parse email: " ++ e)
        written := none
        request_status := some request.status
        backend_calls := 0 }
    | Except.ok _ =>
      match env.get_encoded_command_params email request with
      | Except.error e =>
        { result := Except.error ("Failed to get encoded command params: " ++ e)
          written := none
          request_status := some request.status
          backend_calls := 0 }
      | Except.ok command_params_encoded =>
        match env.generate_email_proof email request with
        | Except.error e =>
          { result := Except.error ("Failed to generate email proof: " ++ e)
            written := none
            request_status := some request.status
            backend_calls := 1 }
        | Except.ok email_proof =>
          let email_auth_msg : EmailAuthMsg :=
            { template_id := request.email_tx_auth.template_id
              command_params := command_params_encoded
              skipped_command_prefix := 0
              proof := email_proof }
          { result := Except.ok email_auth_msg
            written :=
              some (output_path, jsonOutput email_auth_msg hash domain account_salt template_id)
            request_status := some request.status
            backend_calls := 1 }

/-- Two successive invocations of generate_proof with the same arguments.
The driver keeps no state across invocations: each run builds a fresh
request and RelayerState, so the pair simply evaluates the run twice. -/
def run_twice (env : PipelineEnv) (fresh_id now : Nat)
    (hash domain account_salt template_id output_path : String) : RunResult × RunResult :=
  (generate_proof env fresh_id now hash domain account_salt template_id output_path,
   generate_proof env fresh_id now hash domain account_salt template_id output_path)

/-- Hash value used by main. -/
def driver_hash : String :=
  "0x0123456789abcdef0123456789abcdef0123456789abcdef0123456789abcdef"

/-- Domain used by main. -/
def driver_domain : String := "example.com"

/-- Account salt string used by main. -/
def driver_account_salt : String :=
  "0x046582bce36cdd0a8953b9d40b8f20d58302bacf3bcecffeb6741c98a52725e2"

/-- Template id string used by main. -/
def driver_template_id : String :=
  "0x0000000000000000000000000000000000000000000000000000000000000001"

/-- Output path used by main. -/
def driver_output_path : String := "../test/fixtures/zkemail/valid-proof.json"

/-- Numeric value of the account salt string used by main. -/
def driver_salt_value : Nat :=
  0x046582bce36cdd0a8953b9d40b8f20d58302bacf3bcecffeb6741c98a52725e2

/-- The sample email built from the values used by main. -/
def driver_email : String :=
  generate_sample_email driver_hash driver_domain driver_account_salt

/-- The mock request built from the values used by main, with fresh_id and
now both fixed to 0. -/
def driverRequest : RequestModel :=
  { id := 0
    subject := "signHash"
    email_tx_auth :=
      { template_id := 1
        account_salt := some driver_salt_value
        chain := some "sepolia"
        dkim_contract_address := some h256_zero_string }
    status := RequestStatus.Received
    from_email := some "test@example.com"
    reply_to_message_id := none
    created_at := 0
    updated_at := 0 }

/-- A run of generate_proof at exactly the arguments main passes, with
fresh_id and now fixed to 0 and the external stages supplied by env. -/
def driverRun (env : PipelineEnv) : RunResult :=
  generate_proof env 0 0 driver_hash driver_domain driver_account_salt
    driver_template_id driver_output_path

/-- An environment in which every external stage succeeds, exhibiting
concrete successful runs of the driver. -/
def okEnv : PipelineEnv :=
  { parse_email := fun _ => Except.ok ()
    get_encoded_command_params := fun _ _ => Except.ok [[1, 2, 3]]
    generate_email_proof := fun _ _ => Except.ok [7, 7, 7] }

/-- An environment in which email parsing fails and the later stages would
succeed, exhibiting a concrete failing run of the driver. -/
def parseFailEnv : PipelineEnv :=
  { parse_email := fun _ => Except.error "malformed email"
    get_encoded_command_params := fun _ _ => Except.ok [[1, 2, 3]]
    generate_email_proof := fun _ _ => Except.ok [7, 7, 7] }

theorem driverRequest_eq :
    create_mock_request 0 0 driver_template_id driver_account_salt = some driverRequest := by
  decide

theorem create_mock_request_status (fresh_id now : Nat) (template_id account_salt : String)
    (req : RequestModel) (h : create_mock_request fresh_id now template_id account_salt = some req) :
    req.status = RequestStatus.Received := by
  unfold create_mock_request at h
  split at h
  · injection h with h
    subst h
    rfl
  · cases h

/-- C9: generate_sample_email does not depend on the account salt: for every
hash and domain and any two salt strings, the generated email bytes are
identical, because the format string never references the salt argument. -/
theorem generate_sample_email_salt_independent (hash domain s1 s2 : String) :
    generate_sample_email hash domain s1 = generate_sample_email hash domain s2 := rfl

/-- C8: generate_sample_email is a deterministic function of its arguments:
two calls with equal hash, domain and account_salt return identical byte
sequences. -/
theorem generate_sample_email_deterministic (h1 d1 s1 h2 d2 s2 : String)
    (hh : h1 = h2) (hd : d1 = d2) (hs : s1 = s2) :
    generate_sample_email h1 d1 s1 = generate_sample_email h2 d2 s2 := by
  rw [hh, hd, hs]

/-- C8 witness: the two-run determinism theorem applied at the concrete
values main supplies. -/
theorem generate_sample_email_deterministic_witness :
    generate_sample_email driver_hash driver_domain driver_account_salt =
      generate_sample_email driver_hash driver_domain driver_account_salt :=
  generate_sample_email_deterministic driver_hash driver_domain driver_account_salt
    driver_hash driver_domain driver_account_salt rfl rfl rfl

/-- C10: for every template_id string parseable as a U256 and account_salt
string parseable as an H256, create_mock_request returns a RequestModel
with status Received, subject signHash, the parsed template_id, the parsed
salt, chain sepolia, and the rendering of the zero H256 as
dkim_contract_address. -/
theorem create_mock_request_fields (fresh_id now : Nat) (template_id account_salt : String)
    (tv sv : Nat) (ht : parseU256 template_id = some tv) (hs : parseH256 account_salt = some sv) :
    create_mock_request fresh_id now template_id account_salt = some
      { id := fresh_id
        subject := "signHash"
        email_tx_auth :=
          { template_id := tv
            account_salt := some sv
            chain := some "sepolia"
            dkim_contract_address := some h256_zero_string }
        status := RequestStatus.Received
        from_email := some "test@example.com"
        reply_to_message_id := none
        created_at := now
        updated_at := now } := by
  unfold create_mock_request
  rw [ht, hs]

/-- C10 witness: the field theorem applied at the template id and salt
strings main supplies, whose parses are the values 1 and driver_salt_value. -/
theorem create_mock_request_fields_witness :
    create_mock_request 0 0 driver_template_id driver_account_salt = some driverRequest :=
  create_mock_request_fields 0 0 driver_template_id driver_account_salt 1 driver_salt_value
    (by decide) (by decide)

/-- C7: assembly of the EmailAuthMsg is pure construction: whenever the
request is built and all three external stages succeed, the result is
exactly the record whose template_id is the request field
email_tx_auth.template_id, whose command_params is the encoder output,
whose proof is the proof-stage output, and whose skipped_command_prefix is
the hardcoded zero, with no other transformation. -/
theorem email_auth_msg_pure_construction (env : PipelineEnv) (fresh_id now : Nat)
    (hash domain account_salt template_id output_path : String)
    (req : RequestModel) (cp : List (List Nat)) (pf : List Nat)
    (hreq : create_mock_request fresh_id now template_id account_salt = some req)
    (hp : PipelineEnv.parse_email env (generate_sample_email hash domain account_salt) =
      Except.ok ())
    (hc : PipelineEnv.get_encoded_command_params env
        (generate_sample_email hash domain account_salt) req = Except.ok cp)
    (hg : PipelineEnv.generate_email_proof env
        (generate_sample_email hash domain account_salt) req = Except.ok pf) :
    RunResult.result
        (generate_proof env fresh_id now hash domain account_salt template_id output_path) =
      Except.ok
        { template_id := req.email_tx_auth.template_id
          command_params := cp
          skipped_command_prefix := 0
          proof := pf } := by
  simp only [generate_proof, hreq, hp, hc, hg]

/-- C7 witness: the pure-construction theorem applied to the succeeding
environment at the concrete values main supplies. -/
theorem email_auth_msg_pure_construction_witness :
    RunResult.result (driverRun okEnv) =
      Except.ok
        { template_id := driverRequest.email_tx_auth.template_id
          command_params := [[1, 2, 3]]
          skipped_command_prefix := 0
          proof := [7, 7, 7] } :=
  email_auth_msg_pure_construction okEnv 0 0 driver_hash driver_domain driver_account_salt
    driver_template_id driver_output_path driverRequest [[1, 2, 3]] [7, 7, 7]
    (by decide) rfl rfl rfl

/-- C1 (amended): for every run of generate_proof that succeeds, the
skipped_command_prefix field of the assembled EmailAuthMsg equals 0, the
hardcoded U256::zero() of the source, not the byte length 9 of the literal
signHash prefix. -/
theorem skipped_command_prefix_is_zero (env : PipelineEnv) (fresh_id now : Nat)
    (hash domain account_salt template_id output_path : String) (m : EmailAuthMsg)
    (h : RunResult.result
        (generate_proof env fresh_id now hash domain account_salt template_id output_path) =
      Except.ok m) :
    EmailAuthMsg.skipped_command_prefix m = 0 := by
  dsimp only [generate_proof] at h
  split at h
  · simp at h
  · split at h
    · simp at h
    · split at h
      · simp at h
      · split at h
        · simp at h
        · injection h with h
          subst h
          rfl

/-- C1 witness: the amended theorem applied to a concrete successful run at
the values main supplies. -/
theorem skipped_command_prefix_is_zero_witness :
    EmailAuthMsg.skipped_command_prefix
        { template_id := 1
          command_params := [[1, 2, 3]]
          skipped_command_prefix := 0
          proof := [7, 7, 7] } = 0 :=
  skipped_command_prefix_is_zero okEnv 0 0 driver_hash driver_domain driver_account_salt
    driver_template_id driver_output_path
    { template_id := 1
      command_params := [[1, 2, 3]]
      skipped_command_prefix := 0
      proof := [7, 7, 7] }
    rfl

/-- C1 counterexample: a successful run of generate_proof at the inputs
main supplies assembles a message whose skipped_command_prefix is 0 and is
not 9, refuting the claim that it equals the 9-byte literal length. -/
theorem c1_counterexample :
    ∃ m, RunResult.result (driverRun okEnv) = Except.ok m ∧
      EmailAuthMsg.skipped_command_prefix m = 0 ∧
      ¬ EmailAuthMsg.skipped_command_prefix m = 9 := by
  refine ⟨_, rfl, by decide, by decide⟩

/-- C2 (amended): whenever generate_proof writes an output file, the written
JSON document is an object that contains the accountSalt key bound to the
account salt string: the salt is serialized into the persisted output
rather than being kept out of it. -/
theorem account_salt_serialized (env : PipelineEnv) (fresh_id now : Nat)
    (hash domain account_salt template_id output_path : String) (p : String) (doc : Json)
    (h : RunResult.written
        (generate_proof env fresh_id now hash domain account_salt template_id output_path) =
      some (p, doc)) :
    ∃ fields, doc = Json.obj fields ∧ ("accountSalt", Json.str account_salt) ∈ fields := by
  dsimp only [generate_proof] at h
  split at h
  · simp at h
  · split at h
    · simp at h
    · split at h
      · simp at h
      · split at h
        · simp at h
        · injection h with h
          injection h with h1 h2
          subst h2
          exact ⟨_, rfl, by simp [jsonOutput]⟩

/-- C2 witness: the amended theorem applied to a concrete successful run at
the values main supplies. -/
theorem account_salt_serialized_witness :
    ∃ fields,
      jsonOutput
          { template_id := 1
            command_params := [[1, 2, 3]]
            skipped_command_prefix := 0
            proof := [7, 7, 7] }
          driver_hash driver_domain driver_account_salt driver_template_id = Json.obj fields ∧
      ("accountSalt", Json.str driver_account_salt) ∈ fields :=
  account_salt_serialized okEnv 0 0 driver_hash driver_domain driver_account_salt
    driver_template_id driver_output_path driver_output_path
    (jsonOutput
      { template_id := 1
        command_params := [[1, 2, 3]]
        skipped_command_prefix := 0
        proof := [7, 7, 7] }
      driver_hash driver_domain driver_account_salt driver_template_id)
    rfl

/-- C2 counterexample: the concrete run at the values main supplies writes a
JSON document whose fields include the accountSalt key holding exactly the
account salt string, refuting the claim that the salt is never written to
the serialized output. -/
theorem c2_counterexample :
    ∃ fields,
      RunResult.written (driverRun okEnv) = some (driver_output_path, Json.obj fields) ∧
      ("accountSalt", Json.str driver_account_salt) ∈ fields := by
  refine ⟨_, rfl, ?_⟩
  simp

/-- C3 (amended): running the pipeline at exactly the values main supplies,
with the external stages succeeding with encoder output cp and proof
artifact pf, yields an EmailAuthMsg with template_id 1, the hardcoded
skipped_command_prefix 0 rather than 9, command_params equal to cp, and
proof equal to pf. -/
theorem driver_end_to_end (env : PipelineEnv) (cp : List (List Nat)) (pf : List Nat)
    (hp : PipelineEnv.parse_email env driver_email = Except.ok ())
    (hc : PipelineEnv.get_encoded_command_params env driver_email driverRequest = Except.ok cp)
    (hg : PipelineEnv.generate_email_proof env driver_email driverRequest = Except.ok pf) :
    RunResult.result (driverRun env) =
      Except.ok
        { template_id := 1
          command_params := cp
          skipped_command_prefix := 0
          proof := pf } := by
  have hp2 : PipelineEnv.parse_email env
      (generate_sample_email driver_hash driver_domain driver_account_salt) = Except.ok () := hp
  have hc2 : PipelineEnv.get_encoded_command_params env
      (generate_sample_email driver_hash driver_domain driver_account_salt) driverRequest =
      Except.ok cp := hc
  have hg2 : PipelineEnv.generate_email_proof env
      (generate_sample_email driver_hash driver_domain driver_account_salt) driverRequest =
      Except.ok pf := hg
  simp only [driverRun, generate_proof, driverRequest_eq, hp2, hc2, hg2]
  rfl

/-- C3 witness: the end-to-end theorem applied to the succeeding
environment. -/
theorem driver_end_to_end_witness :
    RunResult.result (driverRun okEnv) =
      Except.ok
        { template_id := 1
          command_params := [[1, 2, 3]]
          skipped_command_prefix := 0
          proof := [7, 7, 7] } :=
  driver_end_to_end okEnv [[1, 2, 3]] [7, 7, 7] rfl rfl rfl

/-- C3 counterexample: the concrete successful run at exactly the values
main supplies yields a message with template_id 1 but with
skipped_command_prefix 0, not the 9 required by the claim. -/
theorem c3_counterexample :
    ∃ m, RunResult.result (driverRun okEnv) = Except.ok m ∧
      EmailAuthMsg.template_id m = 1 ∧
      ¬ EmailAuthMsg.skipped_command_prefix m = 9 := by
  refine ⟨_, rfl, by decide, by decide⟩

/-- C4: whenever any of the three pipeline stages fails — email parsing,
command-parameter encoding, or proof generation — generate_proof returns an
error and performs no file write, so no partial AuthorizationMessage is
produced. -/
theorem generate_proof_fail_no_output (env : PipelineEnv) (fresh_id now : Nat)
    (hash domain account_salt template_id output_path : String) (req : RequestModel)
    (hreq : create_mock_request fresh_id now template_id account_salt = some req)
    (hfail :
      isErr (PipelineEnv.parse_email env (generate_sample_email hash domain account_salt)) =
        true ∨
      isErr (PipelineEnv.get_encoded_command_params env
          (generate_sample_email hash domain account_salt) req) = true ∨
      isErr (PipelineEnv.generate_email_proof env
          (generate_sample_email hash domain account_salt) req) = true) :
    isErr (RunResult.result
        (generate_proof env fresh_id now hash domain account_salt template_id output_path)) =
      true ∧
    RunResult.written
        (generate_proof env fresh_id now hash domain account_salt template_id output_path) =
      none := by
  cases hpe : PipelineEnv.parse_email env (generate_sample_email hash domain account_salt) with
  | error e => simp [generate_proof, hreq, hpe, isErr]
  | ok u =>
    cases hce : PipelineEnv.get_encoded_command_params env
        (generate_sample_email hash domain account_salt) req with
    | error e => cases u; simp [generate_proof, hreq, hpe, hce, isErr]
    | ok cp =>
      cases hge : PipelineEnv.generate_email_proof env
          (generate_sample_email hash domain account_salt) req with
      | error e => cases u; simp [generate_proof, hreq, hpe, hce, hge, isErr]
      | ok pf =>
        rcases hfail with hf | hf | hf
        · rw [hpe] at hf
          simp [isErr] at hf
        · rw [hce] at hf
          simp [isErr] at hf
        · rw [hge] at hf
          simp [isErr] at hf

/-- C4 witness: the error-propagation theorem applied to a concrete run in
which email parsing fails. -/
theorem generate_proof_fail_no_output_witness :
    isErr (RunResult.result (driverRun parseFailEnv)) = true ∧
    RunResult.written (driverRun parseFailEnv) = none :=
  generate_proof_fail_no_output parseFailEnv 0 0 driver_hash driver_domain driver_account_salt
    driver_template_id driver_output_path driverRequest driverRequest_eq (Or.inl rfl)

/-- C5 (amended): generate_proof never advances the request lifecycle: at
the end of every run the request status is still Received (or no request
exists because its construction panicked); in particular a successful run
does not end in Proved and a failed run does not end in Failed. -/
theorem request_status_never_advances (env : PipelineEnv) (fresh_id now : Nat)
    (hash domain account_salt template_id output_path : String) :
    RunResult.request_status
        (generate_proof env fresh_id now hash domain account_salt template_id output_path) =
      none ∨
    RunResult.request_status
        (generate_proof env fresh_id now hash domain account_salt template_id output_path) =
      some RequestStatus.Received := by
  dsimp only [generate_proof]
  split
  · exact Or.inl rfl
  · rename_i req heq
    have hst : req.status = RequestStatus.Received :=
      create_mock_request_status fresh_id now template_id account_salt req heq
    split
    · exact Or.inr (by simp [hst])
    · split
      · exact Or.inr (by simp [hst])
      · split
        · exact Or.inr (by simp [hst])
        · exact Or.inr (by simp [hst])

/-- C5 counterexample: a successful concrete run at the values main supplies
ends with the request still in status Received, not Proved, refuting the
claimed Received to Proved transition on success. -/
theorem c5_counterexample :
    isErr (RunResult.result (driverRun okEnv)) = false ∧
    RunResult.request_status (driverRun okEnv) = some RequestStatus.Received ∧
    ¬ RunResult.request_status (driverRun okEnv) = some RequestStatus.Proved := by
  refine ⟨by decide, by decide, by decide⟩

theorem backend_calls_one_of_ok (env : PipelineEnv) (fresh_id now : Nat)
    (hash domain account_salt template_id output_path : String) (m : EmailAuthMsg)
    (h : RunResult.result
        (generate_proof env fresh_id now hash domain account_salt template_id output_path) =
      Except.ok m) :
    RunResult.backend_calls
        (generate_proof env fresh_id now hash domain account_salt template_id output_path) =
      1 := by
  cases hcr : create_mock_request fresh_id now template_id account_salt with
  | none => simp [generate_proof, hcr] at h
  | some req =>
    cases hpe : PipelineEnv.parse_email env (generate_sample_email hash domain account_salt) with
    | error e => simp [generate_proof, hcr, hpe] at h
    | ok u =>
      cases u
      cases hce : PipelineEnv.get_encoded_command_params env
          (generate_sample_email hash domain account_salt) req with
      | error e => simp [generate_proof, hcr, hpe, hce] at h
      | ok cp =>
        cases hge : PipelineEnv.generate_email_proof env
            (generate_sample_email hash domain account_salt) req with
        | error e => simp [generate_proof, hcr, hpe, hce, hge]
        | ok pf => simp [generate_proof, hcr, hpe, hce, hge]

/-- C6 (amended): the driver keeps no cross-invocation state, so invoking it
twice with the same arguments deterministically returns identical results,
but each successful invocation performs its own proving-backend call: there
is no Proved-state cache that suppresses the second backend call. -/
theorem rerun_regenerates (env : PipelineEnv) (fresh_id now : Nat)
    (hash domain account_salt template_id output_path : String) (m : EmailAuthMsg)
    (hok : RunResult.result
        (generate_proof env fresh_id now hash domain account_salt template_id output_path) =
      Except.ok m) :
    Prod.fst (run_twice env fresh_id now hash domain account_salt template_id output_path) =
      Prod.snd (run_twice env fresh_id now hash domain account_salt template_id output_path) ∧
    RunResult.backend_calls
        (Prod.fst (run_twice env fresh_id now hash domain account_salt template_id output_path)) +
      RunResult.backend_calls
        (Prod.snd (run_twice env fresh_id now hash domain account_salt template_id output_path)) =
      2 := by
  have h1 : RunResult.backend_calls
      (generate_proof env fresh_id now hash domain account_salt template_id output_path) = 1 :=
    backend_calls_one_of_ok env fresh_id now hash domain account_salt template_id output_path
      m hok
  exact ⟨rfl, by simp [run_twice, h1]⟩

/-- C6 witness: the regeneration theorem applied to a concrete successful
run at the values main supplies. -/
theorem rerun_regenerates_witness :
    Prod.fst (run_twice okEnv 0 0 driver_hash driver_domain driver_account_salt
        driver_template_id driver_output_path) =
      Prod.snd (run_twice okEnv 0 0 driver_hash driver_domain driver_account_salt
        driver_template_id driver_output_path) ∧
    RunResult.backend_calls
        (Prod.fst (run_twice okEnv 0 0 driver_hash driver_domain driver_account_salt
          driver_template_id driver_output_path)) +
      RunResult.backend_calls
        (Prod.snd (run_twice okEnv 0 0 driver_hash driver_domain driver_account_salt
          driver_template_id driver_output_path)) = 2 :=
  rerun_regenerates okEnv 0 0 driver_hash driver_domain driver_account_salt driver_template_id
    driver_output_path
    { template_id := 1
      command_params := [[1, 2, 3]]
      skipped_command_prefix := 0
      proof := [7, 7, 7] }
    rfl

/-- C6 counterexample: two successive invocations at the same concrete
inputs both succeed with identical results, yet the proving backend is
invoked once by each run — two backend calls in total — refuting the claim
that a second invocation returns the prior artifact without invoking the
backend again. -/
theorem c6_counterexample :
    isErr (RunResult.result (Prod.fst (run_twice okEnv 0 0 driver_hash driver_domain
        driver_account_salt driver_template_id driver_output_path))) = false ∧
    Prod.fst (run_twice okEnv 0 0 driver_hash driver_domain driver_account_salt
        driver_template_id driver_output_path) =
      Prod.snd (run_twice okEnv 0 0 driver_hash driver_domain driver_account_salt
        driver_template_id driver_output_path) ∧
    RunResult.backend_calls
        (Prod.fst (run_twice okEnv 0 0 driver_hash driver_domain driver_account_salt
          driver_template_id driver_output_path)) +
      RunResult.backend_calls
        (Prod.snd (run_twice okEnv 0 0 driver_hash driver_domain driver_account_salt
          driver_template_id driver_output_path)) = 2 := by
  refine ⟨by decide, rfl, by decide⟩

end ZkEmailFixture
